import Mathlib

/-!
Verification of the Cap desktop client binding (`apps/desktop-solid/src/utils/tauri.ts`)
and of the backend contract it documents.

The binding file itself contains the data model (the `user-defined types` section)
and the command wrappers (the `commands` object); the backend subsystem the spec
describes (recording-session state machine, render engine, editor instance) is not
part of the sources, so those parts are modelled from the spec, each such
definition marked `Modelled from the spec:`.

Conventions of the embedding: TypeScript `number` is embedded as `Int` (frame
counts and frame indices as `Nat` where the source uses them as indices),
`null` as `Unit` or `Option`, a resolved/rejected promise as an explicit
`InvokeOutcome` value, and a promise that either fulfils, returns a typed
error, or rejects with a thrown value as `CallResult`.
-/

/-- The tagged aspect-ratio variant from `tauri.ts`. -/
inductive AspectRatio
  | wide | vertical | square | classic | tall
deriving DecidableEq, Repr

/-- One corner of the source: `XY<T> = { x: T; y: T }`. -/
structure XY (T : Type) where
  x : T
  y : T
deriving DecidableEq, Repr

/-- Crop region: `{ position: XY<number>; size: XY<number> }`. -/
structure Crop where
  position : XY Int
  size : XY Int
deriving DecidableEq, Repr

/-- The tagged background-source variant: wallpaper / image / color / gradient. -/
inductive BackgroundSource
  | wallpaper (id : Int)
  | image (path : Option String)
  | color (value : Int × Int × Int)
  | gradient (gfrom gto : Int × Int × Int)
deriving DecidableEq, Repr

/-- Background treatment: source plus blur / padding / rounding / inset / crop. -/
structure BackgroundConfiguration where
  source : BackgroundSource
  blur : Int
  padding : Int
  rounding : Int
  inset : Int
  crop : Option Crop
deriving DecidableEq, Repr

/-- Horizontal camera-overlay anchor. -/
inductive CameraXPosition
  | left | center | right
deriving DecidableEq, Repr

/-- Vertical camera-overlay anchor. -/
inductive CameraYPosition
  | top | bottom
deriving DecidableEq, Repr

/-- Camera-overlay position: `{ x: CameraXPosition; y: CameraYPosition }`. -/
structure CameraPosition where
  x : CameraXPosition
  y : CameraYPosition
deriving DecidableEq, Repr

/-- Camera overlay settings: hide / mirror / position / rounding / shadow. -/
structure CameraConfiguration where
  hide : Bool
  mirror : Bool
  position : CameraPosition
  rounding : Int
  shadow : Int
deriving DecidableEq, Repr

/-- Audio treatment: `{ mute: boolean; improve: boolean }`. -/
structure AudioConfiguration where
  mute : Bool
  improve : Bool
deriving DecidableEq, Repr

/-- Cursor style variant. -/
inductive CursorType
  | pointer | circle
deriving DecidableEq, Repr

/-- Cursor styling: hide-when-idle / size / type. -/
structure CursorConfiguration where
  hideWhenIdle : Bool
  size : Int
  type : CursorType
deriving DecidableEq, Repr

/-- Hotkeys overlay configuration: `{ show: boolean }` (the source field `show` is a
Lean keyword, embedded here as `show_`). -/
structure HotkeysConfiguration where
  show_ : Bool
deriving DecidableEq, Repr

/-- The project configuration exactly as `tauri.ts` declares it:
`{ aspectRatio; background; camera; audio; cursor; hotkeys }`. -/
structure ProjectConfiguration where
  aspectRatio : Option AspectRatio
  background : BackgroundConfiguration
  camera : CameraConfiguration
  audio : AudioConfiguration
  cursor : CursorConfiguration
  hotkeys : HotkeysConfiguration
deriving DecidableEq, Repr

/-- The project configuration as the specification's data-model section lists its
components: aspect ratio, background, camera overlay, audio treatment, cursor
styling — and nothing else. Used to compare the spec's component list against
the source type. -/
structure ProjectConfigurationSpec where
  aspectRatio : Option AspectRatio
  background : BackgroundConfiguration
  camera : CameraConfiguration
  audio : AudioConfiguration
  cursor : CursorConfiguration
deriving DecidableEq, Repr

/-- Projection of a source `ProjectConfiguration` onto the components the spec lists. -/
def specComponents (p : ProjectConfiguration) : ProjectConfigurationSpec :=
  ⟨p.aspectRatio, p.background, p.camera, p.audio, p.cursor⟩

/-- Display-track metadata: `{ duration; width; height; fps }`. -/
structure Video where
  duration : Int
  width : Int
  height : Int
  fps : Int
deriving DecidableEq, Repr

/-- Audio-track metadata: `{ duration; sample_rate; channels }`. -/
structure Audio where
  duration : Int
  sample_rate : Int
  channels : Int
deriving DecidableEq, Repr

/-- Track metadata of a recording: display track plus optional camera and audio tracks. -/
structure ProjectRecordings where
  display : Video
  camera : Option Video
  audio : Option Audio
deriving DecidableEq, Repr

/-- Serialized editor instance as `tauri.ts` declares it. -/
structure SerializedEditorInstance where
  framesSocketUrl : String
  recordingDuration : Int
  savedProjectConfig : Option ProjectConfiguration
  recordings : ProjectRecordings
  path : String
deriving DecidableEq, Repr

/-- Window bounds: `{ x; y; width; height }`. -/
structure Bounds where
  x : Int
  y : Int
  width : Int
  height : Int
deriving DecidableEq, Repr

/-- Display source of an in-progress recording: screen, or a window with bounds. -/
inductive DisplaySource
  | screen
  | window (bounds : Bounds)
deriving DecidableEq, Repr

/-- Transient handle of an active recording session. -/
structure InProgressRecording where
  recordingDir : String
  displaySource : DisplaySource
deriving DecidableEq, Repr

/-- The source's `JsonValue<T> = [T]`: a one-element tuple wrapping `T`. -/
structure JsonValue (T : Type) where
  val : T
deriving DecidableEq, Repr

/-- Ordered render-progress variant stream element. -/
inductive RenderProgress
  | Starting (total_frames : Nat)
  | EstimatedTotalFrames (total_frames : Nat)
  | FrameRendered (current_frame : Nat)
deriving DecidableEq, Repr

/-- A value the host IPC bridge rejected a command promise with: `isError` records
whether it is an `Error` instance (the `e instanceof Error` test in the source). -/
structure Rejection where
  isError : Bool
  payload : String
deriving DecidableEq, Repr

/-- Outcome of the underlying `TAURI_INVOKE` promise: resolve with a value, or
reject with some value. -/
inductive InvokeOutcome (α : Type)
  | resolve (v : α)
  | reject (r : Rejection)
deriving DecidableEq, Repr

/-- What the caller of a command wrapper observes: a typed ok result, a typed
error result, or a thrown value (the returned promise rejects). -/
inductive CallResult (α : Type)
  | ok (v : α)
  | err (e : String)
  | thrown (e : String)
deriving DecidableEq, Repr

/-- The `try/catch` Result pattern every `Result`-typed command in `tauri.ts` uses:
a resolved value becomes `{status:"ok"}`, a rejection that is an `Error` instance
is rethrown, any other rejection becomes `{status:"error"}`. -/
def resultWrap {α : Type} : InvokeOutcome α → CallResult α
  | .resolve v => .ok v
  | .reject r => if r.isError then .thrown r.payload else .err r.payload

/-- The bare `await TAURI_INVOKE` pattern of the `void`-returning commands:
a resolved value is returned, every rejection propagates to the caller. -/
def passthroughWrap {α : Type} : InvokeOutcome α → CallResult α
  | .resolve v => .ok v
  | .reject r => .thrown r.payload

namespace Commands

/-- Wrapper of the `start_recording` command (`Result<null, string>`). -/
def startRecording (o : InvokeOutcome Unit) : CallResult Unit :=
  resultWrap o

/-- Wrapper of the `stop_recording` command (`Result<null, string>`). -/
def stopRecording (o : InvokeOutcome Unit) : CallResult Unit :=
  resultWrap o

/-- Wrapper of the `get_current_recording` command
(`Result<JsonValue<InProgressRecording | null>, null>`). -/
def getCurrentRecording (o : InvokeOutcome (JsonValue (Option InProgressRecording))) :
    CallResult (JsonValue (Option InProgressRecording)) :=
  resultWrap o

/-- Wrapper of the `render_to_file` command: returns `Promise<void>`, no Result
pattern, so every backend failure propagates as a rejected promise. -/
def renderToFile (outputPath videoId : String) (project : ProjectConfiguration)
    (o : InvokeOutcome Unit) : CallResult Unit :=
  passthroughWrap o

/-- Wrapper of the `get_rendered_video` command (`Result<string, string>`). -/
def getRenderedVideo (videoId : String) (project : ProjectConfiguration)
    (o : InvokeOutcome String) : CallResult String :=
  resultWrap o

/-- Wrapper of the `create_editor_instance` command
(`Result<SerializedEditorInstance, string>`). -/
def createEditorInstance (videoId : String) (o : InvokeOutcome SerializedEditorInstance) :
    CallResult SerializedEditorInstance :=
  resultWrap o

/-- Wrapper of the `start_playback` command: `Promise<void>`, no Result pattern. -/
def startPlayback (videoId : String) (project : ProjectConfiguration)
    (o : InvokeOutcome Unit) : CallResult Unit :=
  passthroughWrap o

/-- Wrapper of the `stop_playback` command: `Promise<void>`, no Result pattern. -/
def stopPlayback (videoId : String) (o : InvokeOutcome Unit) : CallResult Unit :=
  passthroughWrap o

/-- Wrapper of the `set_playhead_position` command: `Promise<void>`, no Result pattern. -/
def setPlayheadPosition (videoId : String) (frameNumber : Int)
    (o : InvokeOutcome Unit) : CallResult Unit :=
  passthroughWrap o

/-- Wrapper of the `save_project_config` command: `Promise<void>`, no Result pattern. -/
def saveProjectConfig (videoId : String) (config : ProjectConfiguration)
    (o : InvokeOutcome Unit) : CallResult Unit :=
  passthroughWrap o

end Commands

/-- A concrete project configuration used in concrete instantiations. -/
def cfgA : ProjectConfiguration :=
  { aspectRatio := none,
    background :=
      { source := .color (0, 0, 0), blur := 0, padding := 0, rounding := 0,
        inset := 0, crop := none },
    camera :=
      { hide := false, mirror := false, position := ⟨.right, .bottom⟩,
        rounding := 0, shadow := 0 },
    audio := { mute := false, improve := false },
    cursor := { hideWhenIdle := false, size := 16, type := .pointer },
    hotkeys := { show_ := false } }

/-- The same configuration as `cfgA` except for the hotkeys component. -/
def cfgB : ProjectConfiguration :=
  { cfgA with hotkeys := { show_ := true } }

namespace Backend

/-- Modelled from the spec: the recording-session state machine of the backend
(states `Idle → Starting → Active → Stopping → Finalized`, plus a terminal
`Aborted`); the state machine itself is not among the sources, only its client
binding is. -/
inductive SessionState
  | idle | starting | active | stopping | finalized | aborted
deriving DecidableEq, Repr

/-- Modelled from the spec: the backend handler of a stop request. A stop while
`Active` closes every source, flushes, and finalizes the session into a persisted
recording; a stop in any other state — in particular `Idle` or `Finalized` — is an
idempotent no-op that returns success, never an error. -/
def stopRecordingSession : SessionState → SessionState × Except String Unit
  | .active => (.finalized, .ok ())
  | .stopping => (.stopping, .ok ())
  | s => (s, .ok ())

/-- True exactly on `FrameRendered` progress events. -/
def isFrameRendered : RenderProgress → Bool
  | .FrameRendered _ => true
  | _ => false

/-- True exactly on the `Starting` progress event. -/
def isStarting : RenderProgress → Bool
  | .Starting _ => true
  | _ => false

/-- The frame index carried by a `FrameRendered` event, if any. -/
def frameIdx : RenderProgress → Option Nat
  | .FrameRendered i => some i
  | _ => none

/-- The frame indices of the `FrameRendered` events of a progress stream, in order. -/
def frameEvents (t : List RenderProgress) : List Nat :=
  t.filterMap frameIdx

/-- Modelled from the spec: the render loop of the Render Engine, which emits a
`FrameRendered{i}` event after each frame `i` is durably encoded, in index order,
`n` frames remaining from index `i`. The Render Engine is not among the sources. -/
def renderFrom (i : Nat) : Nat → List RenderProgress
  | 0 => []
  | n + 1 => RenderProgress.FrameRendered i :: renderFrom (i + 1) n

/-- The total frame count a render settles on: the last revised estimate when the
initial estimate was revised, the initial estimate otherwise. -/
def finalTotal (est : Nat) (revs : List Nat) : Nat :=
  revs.getLastD est

/-- Modelled from the spec: the full progress stream of one render job — a
`Starting` event with the initial estimate, then any `EstimatedTotalFrames`
revisions (all before the first frame event), then the frame loop over the final
total. The Render Engine emitting it is not among the sources. -/
def renderProgressTrace (est : Nat) (revs : List Nat) : List RenderProgress :=
  RenderProgress.Starting est ::
    (revs.map RenderProgress.EstimatedTotalFrames ++ renderFrom 0 (finalTotal est revs))

/-- Modelled from the spec: how one render job terminates — success, cancellation,
or failure. -/
inductive RenderOutcome
  | success
  | cancelled
  | failed (reason : String)
deriving DecidableEq, Repr

/-- Modelled from the spec: the file-system effect of one `render_to_file` job,
the file system being the list of existing paths. The job writes to a temporary
path while running; on success it renames the temporary file to the final output
path; on cancellation or failure it deletes the temporary file and never touches
the final path. The Render Engine is not among the sources. -/
def renderJob (finalPath tmpPath : String) (oc : RenderOutcome) (fs : List String) :
    List String :=
  let running := tmpPath :: fs
  match oc with
  | .success => finalPath :: running.erase tmpPath
  | .cancelled => running.erase tmpPath
  | .failed _ => running.erase tmpPath

/-- Modelled from the spec: a persisted recording — a directory with a display
track, optional camera and audio tracks, and optionally a saved project
configuration. The on-disk entity is not among the sources. -/
structure Recording where
  path : String
  display : Video
  camera : Option Video
  audio : Option Audio
  savedConfig : Option ProjectConfiguration
deriving DecidableEq, Repr

/-- Lookup of a recording by its opaque `videoId` in the store of persisted
recordings. -/
def lookupRecording (store : List (String × Recording)) (v : String) : Option Recording :=
  match store with
  | [] => none
  | (k, r) :: rest => if k = v then some r else lookupRecording rest v

/-- Modelled from the spec: the number of output frames of a render of a
recording, computed from the display track's duration and frame rate. -/
def totalFrames (r : Recording) : Nat :=
  (r.display.duration * r.display.fps).toNat

/-- Modelled from the spec: one composited output frame — the display sample at
the frame's index combined with the background treatment, the camera overlay
(present only when the recording has a camera track and the project does not hide
it), and the cursor styling, all taken from one project snapshot. -/
structure CompositedFrame where
  index : Nat
  aspectRatio : Option AspectRatio
  background : BackgroundConfiguration
  cameraOverlay : Option CameraConfiguration
  cursor : CursorConfiguration
deriving DecidableEq, Repr

/-- Modelled from the spec: the deterministic per-frame compositing routine of
the Render Engine, a pure function of the recording, the project snapshot and the
frame index. -/
def compositeFrame (r : Recording) (p : ProjectConfiguration) (i : Nat) : CompositedFrame :=
  { index := i,
    aspectRatio := p.aspectRatio,
    background := p.background,
    cameraOverlay := if p.camera.hide then none else r.camera.map fun _ => p.camera,
    cursor := p.cursor }

/-- Modelled from the spec: the composited result of rendering a whole recording
under a project snapshot. -/
def renderVideo (r : Recording) (p : ProjectConfiguration) : List CompositedFrame :=
  (List.range (totalFrames r)).map (compositeFrame r p)

/-- Cache of rendered videos, keyed by the `(videoId, project)` pair. -/
structure RenderState where
  cache : List ((String × ProjectConfiguration) × List CompositedFrame)
deriving DecidableEq, Repr

/-- Lookup in the render cache by `(videoId, project)` key. -/
def lookupCache (c : List ((String × ProjectConfiguration) × List CompositedFrame))
    (k : String × ProjectConfiguration) : Option (List CompositedFrame) :=
  match c with
  | [] => none
  | (k', out) :: rest => if k' = k then some out else lookupCache rest k

/-- Modelled from the spec: the backend of `get_rendered_video` — returns the
cached render for the `(videoId, project)` pair when one exists, otherwise
renders the recording under the project and caches the result by that pair;
`none` when the `videoId` resolves to no recording. The backend command handler
is not among the sources. -/
def getRenderedVideo (store : List (String × Recording)) (st : RenderState)
    (v : String) (p : ProjectConfiguration) : Option (List CompositedFrame) × RenderState :=
  match lookupCache st.cache (v, p) with
  | some out => (some out, st)
  | none =>
    match lookupRecording store v with
    | none => (none, st)
    | some r =>
      let out := renderVideo r p
      (some out, ⟨((v, p), out) :: st.cache⟩)

/-- Modelled from the spec: the playback-socket address an editor instance
exposes for its `videoId`. -/
def framesSocket (v : String) : String :=
  "ws://editor/" ++ v

/-- Modelled from the spec: the backend of `create_editor_instance` — fails with
`NotFound` when the `videoId` resolves to no recording, otherwise returns the
serialized instance: playback-socket address, display-track duration, the saved
project configuration when one exists (`none` otherwise), the constituent track
metadata, and the recording's path. The backend command handler is not among the
sources. -/
def createEditorInstance (store : List (String × Recording)) (v : String) :
    Except String SerializedEditorInstance :=
  match lookupRecording store v with
  | none => .error "NotFound"
  | some r =>
    .ok
      { framesSocketUrl := framesSocket v,
        recordingDuration := r.display.duration,
        savedProjectConfig := r.savedConfig,
        recordings := ⟨r.display, r.camera, r.audio⟩,
        path := r.path }

/-- Modelled from the spec: the mutable playback state of an editor instance — the
total frame count of the loaded recording, the playhead, and whether the playback
loop is running. The Editor Instance is not among the sources. -/
structure EditorState where
  totalFrames : Nat
  playhead : Nat
  playing : Bool
deriving DecidableEq, Repr

/-- Modelled from the spec: `seek(frameNumber)` clamps the requested frame into
`[0, totalFrames-1]` and moves the playhead there, leaving the playing flag
untouched. -/
def setPlayheadPosition (st : EditorState) (f : Int) : EditorState :=
  { st with
    playhead :=
      if f < 0 then 0
      else if (st.totalFrames : Int) ≤ f then st.totalFrames - 1
      else f.toNat }

/-- Modelled from the spec: one tick of the playback loop — when playing, the
frame at the current playhead is composited and pushed to the consumers and the
playhead advances; at end of track playback stops automatically; when not
playing, the tick streams nothing. -/
def playbackTick (st : EditorState) : Option Nat × EditorState :=
  if st.playing then
    if st.playhead + 1 < st.totalFrames then
      (some st.playhead, { st with playhead := st.playhead + 1 })
    else
      (some st.playhead, { st with playing := false })
  else
    (none, st)

end Backend

/-- A concrete recording used in concrete instantiations. -/
def recA : Backend.Recording :=
  { path := "/recordings/a", display := ⟨2, 1920, 1080, 30⟩, camera := none,
    audio := none, savedConfig := none }

/-- The render loop starting at index `i` with `n` frames left emits exactly the
`FrameRendered` events of indices `i, i+1, …, i+n-1` in order. -/
theorem renderFrom_eq (n i : Nat) :
    Backend.renderFrom i n = (List.range' i n).map RenderProgress.FrameRendered := by
  induction n generalizing i with
  | zero => simp [Backend.renderFrom]
  | succ k ih => simp [Backend.renderFrom, List.range'_succ, ih]

/-- A block of `EstimatedTotalFrames` events carries no frame event. -/
theorem frameEvents_estimates (revs : List Nat) :
    Backend.frameEvents (revs.map RenderProgress.EstimatedTotalFrames) = [] := by
  induction revs with
  | nil => rfl
  | cons a l ih => simp [Backend.frameEvents, Backend.frameIdx, List.filterMap_cons, ih]

/-- The frame events of the render loop from index `0` are exactly `0, …, n-1`. -/
theorem frameEvents_renderFrom (n : Nat) :
    Backend.frameEvents (Backend.renderFrom 0 n) = List.range n := by
  rw [Backend.frameEvents, renderFrom_eq, List.filterMap_map, List.range_eq_range']
  have h : Backend.frameIdx ∘ RenderProgress.FrameRendered = some := rfl
  rw [h, List.filterMap_some]

/-- C1: a render's progress stream opens with exactly one `Starting{total_frames}`
event, every `EstimatedTotalFrames` revision precedes the first `FrameRendered`
(the frame events form a suffix of the stream), and the `FrameRendered` indices
are exactly `0, …, total_frames-1` — strictly increasing, skipping no index, the
final one being `total_frames - 1`. -/
theorem render_progress_stream_shape (est : Nat) (revs : List Nat)
    (h : 0 < Backend.finalTotal est revs) :
    (Backend.renderProgressTrace est revs).head? = some (RenderProgress.Starting est) ∧
    (∀ e ∈ (Backend.renderProgressTrace est revs).tail, Backend.isStarting e = false) ∧
    (∃ pre post, Backend.renderProgressTrace est revs = pre ++ post ∧
      (∀ e ∈ pre, Backend.isFrameRendered e = false) ∧
      (∀ e ∈ post, Backend.isFrameRendered e = true)) ∧
    Backend.frameEvents (Backend.renderProgressTrace est revs) =
      List.range (Backend.finalTotal est revs) ∧
    List.Pairwise (· < ·) (Backend.frameEvents (Backend.renderProgressTrace est revs)) ∧
    (Backend.frameEvents (Backend.renderProgressTrace est revs)).getLast? =
      some (Backend.finalTotal est revs - 1) := by
  have hframes : Backend.frameEvents (Backend.renderProgressTrace est revs) =
      List.range (Backend.finalTotal est revs) := by
    rw [Backend.renderProgressTrace, Backend.frameEvents, List.filterMap_cons]
    have h0 : Backend.frameIdx (RenderProgress.Starting est) = none := rfl
    rw [h0, List.filterMap_append]
    have h1 := frameEvents_estimates revs
    have h2 := frameEvents_renderFrom (Backend.finalTotal est revs)
    rw [Backend.frameEvents] at h1 h2
    rw [h1, h2, List.nil_append]
  refine ⟨rfl, ?_, ?_, hframes, ?_, ?_⟩
  · intro e he
    rw [Backend.renderProgressTrace] at he
    simp only [List.tail_cons, List.mem_append, List.mem_map] at he
    rcases he with ⟨a, _, rfl⟩ | he
    · rfl
    · rw [renderFrom_eq] at he
      rcases List.mem_map.mp he with ⟨a, _, rfl⟩
      rfl
  · refine ⟨RenderProgress.Starting est :: revs.map RenderProgress.EstimatedTotalFrames,
      Backend.renderFrom 0 (Backend.finalTotal est revs), rfl, ?_, ?_⟩
    · intro e he
      rcases List.mem_cons.mp he with rfl | he
      · rfl
      · rcases List.mem_map.mp he with ⟨a, _, rfl⟩
        rfl
    · intro e he
      rw [renderFrom_eq] at he
      rcases List.mem_map.mp he with ⟨a, _, rfl⟩
      rfl
  · rw [hframes]; exact List.pairwise_lt_range _
  · rw [hframes]
    rcases Nat.exists_eq_add_of_lt h with ⟨m, hm⟩
    have : Backend.finalTotal est revs = m + 1 := by omega
    rw [this, List.range_succ, List.getLast?_concat]
    simp

/-- Concrete instantiation of `render_progress_stream_shape`: with an initial
estimate of `2` frames revised to `3`, the frame events are exactly `0, 1, 2`. -/
theorem render_progress_stream_shape_witness :
    Backend.frameEvents (Backend.renderProgressTrace 2 [3]) = List.range 3 :=
  (render_progress_stream_shape 2 [3] (by decide)).2.2.2.1

/-- C2: for a fresh final output path distinct from the temporary path, the final
path exists after a render job exactly when the job succeeded — cancellation or
failure leaves no file at the final output path. -/
theorem render_output_only_after_success (finalPath tmpPath : String)
    (oc : Backend.RenderOutcome) (fs : List String)
    (hfresh : finalPath ∉ fs) (hne : finalPath ≠ tmpPath) :
    finalPath ∈ Backend.renderJob finalPath tmpPath oc fs ↔ oc = .success := by
  cases oc with
  | success => simp [Backend.renderJob]
  | cancelled =>
    simp only [Backend.renderJob]
    constructor
    · intro hmem
      rcases List.mem_cons.mp (List.mem_of_mem_erase hmem) with rfl | hmem'
      · exact absurd rfl hne
      · exact absurd hmem' hfresh
    · intro hc; cases hc
  | failed reason =>
    simp only [Backend.renderJob]
    constructor
    · intro hmem
      rcases List.mem_cons.mp (List.mem_of_mem_erase hmem) with rfl | hmem'
      · exact absurd rfl hne
      · exact absurd hmem' hfresh
    · intro hc; cases hc

/-- Concrete instantiation of `render_output_only_after_success`: on an empty file
system, a successful job leaves `/out.mp4` and a cancelled job does not. -/
theorem render_output_only_after_success_witness :
    "/out.mp4" ∈ Backend.renderJob "/out.mp4" "/out.mp4.tmp" .success [] ∧
    "/out.mp4" ∉ Backend.renderJob "/out.mp4" "/out.mp4.tmp" .cancelled [] :=
  ⟨(render_output_only_after_success "/out.mp4" "/out.mp4.tmp" .success []
      (by simp) (by decide)).mpr rfl,
   fun hmem => Backend.RenderOutcome.noConfusion
     ((render_output_only_after_success "/out.mp4" "/out.mp4.tmp" .cancelled []
       (by simp) (by decide)).mp hmem)⟩

/-- C3: fetching the rendered video for the same `(videoId, project)` pair twice
is idempotent — the second request returns the very output of the first and
leaves the render state unchanged, so callers may cache by that pair and
serialized back-to-back renders of one pair yield identical output. -/
theorem rendered_video_idempotent (store : List (String × Backend.Recording))
    (st : Backend.RenderState) (v : String) (p : ProjectConfiguration) :
    (Backend.getRenderedVideo store (Backend.getRenderedVideo store st v p).2 v p).1 =
      (Backend.getRenderedVideo store st v p).1 ∧
    (Backend.getRenderedVideo store (Backend.getRenderedVideo store st v p).2 v p).2 =
      (Backend.getRenderedVideo store st v p).2 := by
  unfold Backend.getRenderedVideo
  cases hc : Backend.lookupCache st.cache (v, p) with
  | some out => simp [hc]
  | none =>
    cases hr : Backend.lookupRecording store v with
    | none => simp [hc, hr]
    | some r => simp [hc, hr, Backend.lookupCache]

/-- C4: a stop request in the `Idle` or `Finalized` state is a no-op that returns
success and leaves the session state unchanged. -/
theorem stop_recording_noop_idle_finalized :
    Backend.stopRecordingSession .idle = (.idle, .ok ()) ∧
    Backend.stopRecordingSession .finalized = (.finalized, .ok ()) :=
  ⟨rfl, rfl⟩

/-- C5: `create_editor_instance` fails with `NotFound` exactly when the `videoId`
resolves to no recording; on success the serialized instance carries the
playback-stream address, the recording's duration, its saved project
configuration (`none` when absent), and the constituent track metadata. -/
theorem create_editor_instance_contract (store : List (String × Backend.Recording))
    (v : String) :
    (Backend.lookupRecording store v = none →
      Backend.createEditorInstance store v = .error "NotFound") ∧
    (∀ r, Backend.lookupRecording store v = some r →
      Backend.createEditorInstance store v =
        .ok { framesSocketUrl := Backend.framesSocket v,
              recordingDuration := r.display.duration,
              savedProjectConfig := r.savedConfig,
              recordings := ⟨r.display, r.camera, r.audio⟩,
              path := r.path }) := by
  constructor
  · intro hnone
    rw [Backend.createEditorInstance, hnone]
  · intro r hsome
    rw [Backend.createEditorInstance, hsome]

/-- Concrete instantiation of `create_editor_instance_contract`: an unknown
`videoId` yields `NotFound`, and a known one yields the serialized instance. -/
theorem create_editor_instance_contract_witness :
    Backend.createEditorInstance [] "missing" = .error "NotFound" ∧
    Backend.createEditorInstance [("a", recA)] "a" =
      .ok { framesSocketUrl := Backend.framesSocket "a",
            recordingDuration := recA.display.duration,
            savedProjectConfig := recA.savedConfig,
            recordings := ⟨recA.display, recA.camera, recA.audio⟩,
            path := recA.path } :=
  ⟨(create_editor_instance_contract [] "missing").1 rfl,
   (create_editor_instance_contract [("a", recA)] "a").2 recA (by decide)⟩

/-- C6 counterexample: `renderToFile` uses no Result pattern, so a render failure
surfaces to the caller as a rejected promise (a thrown value), not as a typed
error result — refuting that every front-end operation reports every failure as
a typed result value. -/
theorem render_to_file_failure_is_exception :
    Commands.renderToFile "/out.mp4" "vid1" cfgA (.reject ⟨false, "disk full"⟩) =
      CallResult.thrown "disk full" ∧
    Commands.renderToFile "/out.mp4" "vid1" cfgA (.reject ⟨false, "disk full"⟩) ≠
      CallResult.err "disk full" := by
  exact ⟨rfl, by decide⟩

/-- C6 amended: the Result-typed commands report non-`Error` failures as typed
error results, but the `void`-typed commands — render, playback, seek and
project-save — propagate every failure as an exception, and every command
rethrows a failure that is an `Error` instance, bypassing the typed channel. -/
theorem failure_reporting_split (e : String) (b : Bool) (vid out : String)
    (p : ProjectConfiguration) (f : Int) :
    Commands.startRecording (.reject ⟨false, e⟩) = .err e ∧
    Commands.stopRecording (.reject ⟨false, e⟩) = .err e ∧
    Commands.getRenderedVideo vid p (.reject ⟨false, e⟩) = .err e ∧
    Commands.createEditorInstance vid (.reject ⟨false, e⟩) = .err e ∧
    Commands.renderToFile out vid p (.reject ⟨b, e⟩) = .thrown e ∧
    Commands.startPlayback vid p (.reject ⟨b, e⟩) = .thrown e ∧
    Commands.stopPlayback vid (.reject ⟨b, e⟩) = .thrown e ∧
    Commands.setPlayheadPosition vid f (.reject ⟨b, e⟩) = .thrown e ∧
    Commands.saveProjectConfig vid p (.reject ⟨b, e⟩) = .thrown e ∧
    Commands.startRecording (.reject ⟨true, e⟩) = .thrown e := by
  refine ⟨rfl, rfl, rfl, rfl, rfl, rfl, rfl, rfl, rfl, rfl⟩

/-- C7: `seek` clamps the requested frame number into `[0, totalFrames-1]`,
touches nothing but the playhead, and when playback is active the next tick
streams exactly the frame at the clamped position. -/
theorem seek_clamps_playhead (st : Backend.EditorState) (f : Int)
    (h : 0 < st.totalFrames) :
    (Backend.setPlayheadPosition st f).playhead < st.totalFrames ∧
    (Backend.setPlayheadPosition st f).totalFrames = st.totalFrames ∧
    (Backend.setPlayheadPosition st f).playing = st.playing ∧
    (f < 0 → (Backend.setPlayheadPosition st f).playhead = 0) ∧
    (0 ≤ f → f < (st.totalFrames : Int) → (Backend.setPlayheadPosition st f).playhead = f.toNat) ∧
    ((st.totalFrames : Int) ≤ f → (Backend.setPlayheadPosition st f).playhead = st.totalFrames - 1) ∧
    (st.playing = true →
      (Backend.playbackTick (Backend.setPlayheadPosition st f)).1 =
        some (Backend.setPlayheadPosition st f).playhead) := by
  have hph : (Backend.setPlayheadPosition st f).playhead =
      if f < 0 then 0
      else if (st.totalFrames : Int) ≤ f then st.totalFrames - 1
      else f.toNat := rfl
  refine ⟨?_, rfl, rfl, ?_, ?_, ?_, ?_⟩
  · rw [hph]
    split
    · exact h
    · split <;> omega
  · intro hneg
    rw [hph, if_pos hneg]
  · intro h0 hlt
    rw [hph, if_neg (by omega), if_neg (by omega)]
  · intro hge
    rw [hph, if_neg (by omega), if_pos hge]
  · intro hplay
    rw [Backend.playbackTick]
    have hp : (Backend.setPlayheadPosition st f).playing = true := hplay
    rw [if_pos hp]
    split <;> rfl

/-- Concrete instantiation of `seek_clamps_playhead`: seeking frame `42` in a
`10`-frame recording lands the playhead strictly below `10`. -/
theorem seek_clamps_playhead_witness :
    (Backend.setPlayheadPosition ⟨10, 3, true⟩ 42).playhead < 10 :=
  (seek_clamps_playhead ⟨10, 3, true⟩ 42 (by decide)).1

/-- C8 counterexample: two source `ProjectConfiguration` values that agree on the
aspect ratio, background, camera, audio and cursor components and still differ —
the source type carries a sixth `hotkeys` component, so it does not consist of
exactly the five components the claim lists. -/
theorem project_configuration_has_hotkeys_component :
    specComponents cfgA = specComponents cfgB ∧ cfgA ≠ cfgB := by
  decide

/-- C8 amended: a `ProjectConfiguration` consists of exactly the five spec-listed
components plus a hotkeys configuration — two values are equal exactly when they
agree on all six — it is a pure value type, and a recording's saved configuration
may be absent (the serialized editor instance's saved configuration is optional). -/
theorem project_configuration_components (p q : ProjectConfiguration) :
    (p = q ↔ specComponents p = specComponents q ∧ p.hotkeys = q.hotkeys) ∧
    (∃ i : SerializedEditorInstance, i.savedProjectConfig = none) := by
  constructor
  · constructor
    · rintro rfl
      exact ⟨rfl, rfl⟩
    · rintro ⟨h1, h2⟩
      cases p
      cases q
      simp only [specComponents, ProjectConfigurationSpec.mk.injEq] at h1
      simp only at h2
      simp_all
  · exact ⟨{ framesSocketUrl := "", recordingDuration := 0, savedProjectConfig := none,
             recordings := ⟨⟨0, 0, 0, 0⟩, none, none⟩, path := "" }, rfl⟩

/-- C9: every Result-typed command wrapper returns `{status:"ok"}` on a resolved
invoke, rethrows a rejection that is an `Error` instance, and returns
`{status:"error"}` on any other rejection. -/
theorem result_wrapper_semantics (s e vid : String) (inst : SerializedEditorInstance)
    (p : ProjectConfiguration) :
    (Commands.startRecording (.resolve ()) = .ok () ∧
     Commands.startRecording (.reject ⟨true, e⟩) = .thrown e ∧
     Commands.startRecording (.reject ⟨false, e⟩) = .err e) ∧
    (Commands.stopRecording (.resolve ()) = .ok () ∧
     Commands.stopRecording (.reject ⟨true, e⟩) = .thrown e ∧
     Commands.stopRecording (.reject ⟨false, e⟩) = .err e) ∧
    (Commands.getRenderedVideo vid p (.resolve s) = .ok s ∧
     Commands.getRenderedVideo vid p (.reject ⟨true, e⟩) = .thrown e ∧
     Commands.getRenderedVideo vid p (.reject ⟨false, e⟩) = .err e) ∧
    (Commands.createEditorInstance vid (.resolve inst) = .ok inst ∧
     Commands.createEditorInstance vid (.reject ⟨true, e⟩) = .thrown e ∧
     Commands.createEditorInstance vid (.reject ⟨false, e⟩) = .err e) := by
  refine ⟨⟨rfl, rfl, rfl⟩, ⟨rfl, rfl, rfl⟩, ⟨rfl, rfl, rfl⟩, ⟨rfl, rfl, rfl⟩⟩

/-- C10: `getCurrentRecording` never hands back the nullable in-progress
recording bare — a successful call always wraps it in the one-element
`JsonValue`, so the "no active recording" case is `ok ⟨none⟩`, and every
`JsonValue` is such a one-element wrapper. -/
theorem current_recording_json_wrapped (r : Option InProgressRecording) :
    Commands.getCurrentRecording (.resolve (JsonValue.mk r)) = .ok (JsonValue.mk r) ∧
    Commands.getCurrentRecording (.resolve ⟨none⟩) =
      .ok (JsonValue.mk (none : Option InProgressRecording)) ∧
    (∀ j : JsonValue (Option InProgressRecording), j = JsonValue.mk j.val) :=
  ⟨rfl, rfl, fun j => rfl⟩
